import Mathlib

/-!
A shallow embedding of the `obsidian-git-sync` plugin (`src/main.ts`, second
implementation: `syncVault`, `handleSyncError`, `startAutoSync`, `stopAutoSync`)
together with theorems settling the specification claims.

The embedding models the strictly sequential protocol of `syncVault` as a pure
function of the plugin state and an environment (`GitEnv`) that fixes the result
of each git operation in the order the code can invoke it.  The run result
records the operation trace, the notices and status-bar updates in order, the
settings saved via `saveSettings`, the `stashed` local variable, and the error
classification produced by `handleSyncError` when the top-level catch runs.
-/

namespace GitSync

/-- Auxiliary: is `pat` a contiguous sublist of the second argument? -/
def includesList (pat : List Char) : List Char → Bool
  | [] => pat.isEmpty
  | c :: cs => pat.isPrefixOf (c :: cs) || includesList pat cs

/-- JavaScript `String.prototype.includes`: substring containment. -/
def includes (s pat : String) : Bool :=
  includesList pat.toList s.toList

/-- Replace the first occurrence of `pat` in a character list (JS
`String.prototype.replace` with a string pattern replaces only the first). -/
def replaceFirstList (pat repl : List Char) : List Char → List Char
  | [] => []
  | c :: cs =>
    if pat.isPrefixOf (c :: cs) then repl ++ (c :: cs).drop pat.length
    else c :: replaceFirstList pat repl cs

/-- JavaScript `s.replace(pat, repl)` for a string pattern (first match only). -/
def jsReplaceFirst (s pat repl : String) : String :=
  ⟨replaceFirstList pat.toList repl.toList s.toList⟩

/-- JavaScript `String.prototype.toLowerCase` (ASCII range, as used here). -/
def jsToLower (s : String) : String :=
  ⟨s.toList.map Char.toLower⟩

/-- JavaScript truthiness of a `string | null` value (`null` and `""` are falsy). -/
def optTruthy : Option String → Bool
  | none => false
  | some s => s ≠ ""

/-- One entry of simple-git's `StatusResult.files`: per-path working-tree and
index (staged) state, each a single character. -/
structure FileEntry where
  working_dir : Char
  index : Char
deriving DecidableEq

/-- simple-git `StatusResult` as consumed by `syncVault`. -/
structure StatusResult where
  current : Option String
  tracking : Option String
  ahead : Nat
  behind : Nat
  files : List FileEntry
deriving DecidableEq

/-- A thrown JavaScript `Error`, with the optional `error.git` fields read by
`handleSyncError`. -/
structure JsError where
  message : String
  gitFailed : Bool := false
  gitMessage : String := ""
deriving DecidableEq

/-- Settings record (`GitSyncSettings` interface). -/
structure GitSyncSettings where
  commitInterval : Int
  repoUrl : String
  authMethod : String
  autoSync : Bool
  lastSync : String
  commitMessage : String
  logMaxEntries : Int
deriving DecidableEq

/-- `DEFAULT_SETTINGS` from the source. -/
def DEFAULT_SETTINGS : GitSyncSettings :=
  { commitInterval := 15
    repoUrl := ""
    authMethod := "ssh"
    autoSync := true
    lastSync := "Never"
    commitMessage := "Vault auto-sync: \x7b\x7bdate\x7d\x7d"
    logMaxEntries := 50 }

/-- Mutable plugin fields relevant to the claims: settings, whether the
`git` client is non-null, the `isSyncing` flag, and the installed auto-sync
timer (`syncInterval`), holding its interval in milliseconds. -/
structure PluginState where
  settings : GitSyncSettings
  git : Bool
  isSyncing : Bool
  syncInterval : Option Int
deriving DecidableEq

/-- The git operations `syncVault` can invoke, in trace order. -/
inductive GitOp where
  | status
  | stashPush
  | fetch
  | rebase
  | rebaseAbort
  | stashPop
  | add
  | commit
  | push
deriving DecidableEq

/-- Error kinds, one per branch of `handleSyncError`. -/
inductive ErrKind where
  | conflict
  | auth
  | notARepo
  | remote
  | rebaseConflict
  | stashConflict
  | generic
deriving DecidableEq

/-- The user-facing report produced by `handleSyncError`: kind, notice text,
status-bar text. -/
structure ErrReport where
  kind : ErrKind
  notice : String
  statusText : String
deriving DecidableEq

/-- `handleSyncError` (src/main.ts lines 1023-1072): first matching branch wins. -/
def handleSyncError (e : JsError) : ErrReport :=
  let m := if e.message = "" then "Error" else e.message
  if includes m "CONFLICT" || includes m "conflict" ||
      (e.gitFailed && e.gitMessage ≠ "" && includes e.gitMessage "conflict") then
    ⟨ErrKind.conflict,
      "Git Sync: A conflict occurred. Please resolve it manually in your Git client.",
      "Conflict!"⟩
  else if includes m "Host key verification failed" || includes m "Permission denied" then
    ⟨ErrKind.auth,
      "Git Sync: Authentication failed. Check SSH keys or HTTPS credentials.",
      "Auth Error"⟩
  else if includes m "not a git repository" then
    ⟨ErrKind.notARepo,
      "Git Sync: Vault is not a Git repository or .git folder is missing.",
      "Not a repo"⟩
  else if includes m "Could not read from remote repository" then
    ⟨ErrKind.remote,
      "Git Sync: Cannot connect to remote. Check repository URL and network.",
      "Remote Error"⟩
  else if includes m "Merge conflict during rebase, operation aborted" then
    ⟨ErrKind.rebaseConflict,
      "Git Sync: Rebase conflict. Manual resolution needed. Rebase was aborted.",
      "Rebase Conflict!"⟩
  else if includes m "Conflict applying stashed changes" then
    ⟨ErrKind.stashConflict,
      "Git Sync: Stash conflict. Manual resolution needed. Stash may still be present.",
      "Stash Conflict!"⟩
  else
    ⟨ErrKind.generic, "Git Sync: Error - " ++ m.take 100 ++ "...", "Sync Error"⟩

/-- The environment of one `syncVault` run: the outcome of every git operation
in the order the code can reach it (three `status()` calls), plus whether a
re-initialization attempt (`initializeGit`) would yield a client. -/
structure GitEnv where
  status1 : Except JsError StatusResult
  stashPush : Except JsError String
  fetch : Except JsError Unit
  status2 : Except JsError StatusResult
  rebase : Except JsError Unit
  rebaseAbort : Except JsError Unit
  stashPop : Except JsError Unit
  add : Except JsError Unit
  status3 : Except JsError StatusResult
  commit : Except JsError Unit
  push : Except JsError Unit
  reinitSucceeds : Bool

/-- Observable result of one `syncVault` invocation. -/
structure RunResult where
  settings : GitSyncSettings
  git : Bool
  isSyncing : Bool
  stashed : Bool
  trace : List GitOp
  notices : List String
  statusHistory : List String
  saved : List GitSyncSettings
  commitMessages : List String
  classification : Option ErrKind
deriving DecidableEq

/-- The warning emitted by the top-level catch when a stash is outstanding and
the failure is not one of the two conflict cases (src/main.ts lines 996-1006). -/
def stashWarnNotice : String :=
  "Git Sync: Sync failed. Local changes were stashed. You may need to `git stash pop` manually or check `git stash list`."

/-- The top-level `catch` block of `syncVault` (src/main.ts lines 994-1007). -/
def topCatch (r : RunResult) (e : JsError) : RunResult :=
  let r :=
    if r.stashed && !(includes e.message "Conflict applying stashed changes" ||
        includes e.message "Merge conflict during rebase") then
      { r with notices := r.notices ++ [stashWarnNotice] }
    else r
  let rep := handleSyncError e
  { r with
    notices := r.notices ++ [rep.notice]
    statusHistory := r.statusHistory ++ [rep.statusText]
    classification := some rep.kind }

/-- Notice for a branch that is behind with no tracking branch (line 869). -/
def behindNoTrackingNotice (branch : String) (behind : Nat) : String :=
  "Git Sync: Branch '" ++ branch ++ "' is " ++ toString behind ++
    " commits behind, but not tracking a remote branch. Please set upstream. Rebase skipped."

/-- Notice for a branch that is ahead with no tracking branch (line 912). -/
def aheadNoTrackingNotice (branch : String) (ahead : Nat) : String :=
  "Git Sync: Branch '" ++ branch ++ "' is " ++ toString ahead ++
    " commits ahead, but not tracking a remote branch. Commit will be local only unless upstream is set."

/-- Notice for a local commit whose push was skipped (line 976). -/
def committedLocallyNotice (branch : String) : String :=
  "Git Sync: Changes committed locally. Push skipped as branch '" ++ branch ++
    "' is not tracking a remote."

/-- Steps 6-8 of the run: `git add ./*`, the fresh status, and commit/push or
the up-to-date terminal (src/main.ts lines 947-993). -/
def stageCommit (b : RunResult) (env : GitEnv) (currentBranch now : String) : RunResult :=
  let b := { b with trace := b.trace ++ [GitOp.add] }
  match env.add with
  | .error e => topCatch b e
  | .ok _ =>
    match env.status3 with
    | .error e => topCatch { b with trace := b.trace ++ [GitOp.status] } e
    | .ok finalStatus =>
      let b := { b with trace := b.trace ++ [GitOp.status] }
      let filesToCommit := finalStatus.files.filter fun f =>
        f.index != ' ' && f.index != '?'
      if filesToCommit.length > 0 then
        let commitMessage := jsReplaceFirst b.settings.commitMessage "\x7b\x7bdate\x7d\x7d" now
        let b := { b with
          trace := b.trace ++ [GitOp.commit]
          commitMessages := b.commitMessages ++ [commitMessage] }
        match env.commit with
        | .error e => topCatch b e
        | .ok _ =>
          if optTruthy finalStatus.tracking then
            let b := { b with trace := b.trace ++ [GitOp.push] }
            match env.push with
            | .error e => topCatch b e
            | .ok _ =>
              let s := { b.settings with lastSync := now }
              { b with
                settings := s
                saved := b.saved ++ [s]
                statusHistory := b.statusHistory ++ ["Synced"]
                notices := b.notices ++ ["Git Sync: Vault successfully synced with remote."] }
          else
            let s := { b.settings with lastSync := now }
            { b with
              settings := s
              saved := b.saved ++ [s]
              notices := b.notices ++ [committedLocallyNotice currentBranch]
              statusHistory := b.statusHistory ++ ["Committed (not pushed)"] }
      else
        let s := { b.settings with lastSync := now }
        { b with
          settings := s
          saved := b.saved ++ [s]
          statusHistory := b.statusHistory ++ ["Up-to-date"]
          notices := b.notices ++ ["Git Sync: Vault is up-to-date. No local changes to commit."] }

/-- Step 5 of the run: pop the stash when one was created (lines 917-945). -/
def stashPopPhase (b : RunResult) (env : GitEnv) (currentBranch now : String) : RunResult :=
  if b.stashed then
    let b := { b with trace := b.trace ++ [GitOp.stashPop] }
    match env.stashPop with
    | .ok _ => stageCommit b env currentBranch now
    | .error e =>
      if e.message ≠ "" && includes e.message "conflict" then
        topCatch
          { b with
            notices := b.notices ++
              ["Git Sync: Conflict after sync when applying stashed changes. Please resolve conflicts in your Git client. Your stash is likely still available."]
            statusHistory := b.statusHistory ++ ["Stash Conflict!"] }
          { message := "Conflict applying stashed changes. Manual resolution needed." }
      else
        topCatch
          { b with
            notices := b.notices ++
              ["Git Sync: Error applying stashed changes. Check Git status. Your stash may still be available."] }
          e
  else stageCommit b env currentBranch now

/-- Step 4b of the run: rebase onto the tracking branch when behind, with
conflict handling and best-effort abort (lines 877-915). -/
def rebasePhase (b : RunResult) (env : GitEnv) (s2 : StatusResult)
    (currentBranch now : String) : RunResult :=
  if optTruthy s2.tracking && s2.behind > 0 then
    let b := { b with trace := b.trace ++ [GitOp.rebase] }
    match env.rebase with
    | .ok _ => stashPopPhase b env currentBranch now
    | .error rebaseError =>
      if rebaseError.message ≠ "" && includes rebaseError.message "CONFLICT" then
        let b := { b with
          notices := b.notices ++
            ["Git Sync: Merge conflict detected during rebase. Please resolve manually."]
          trace := b.trace ++ [GitOp.rebaseAbort] }
        let b :=
          match env.rebaseAbort with
          | .ok _ =>
            { b with notices := b.notices ++
                ["Git Sync: Rebase aborted. Please resolve conflicts and sync manually."] }
          | .error _ =>
            { b with notices := b.notices ++
                ["Git Sync: Critical! Could not abort rebase. Manual Git intervention required."] }
        topCatch b { message := "Merge conflict during rebase, operation aborted." }
      else
        topCatch
          { b with notices := b.notices ++
              ["Git Sync: Rebase failed. Check Git status or console for details."] }
          rebaseError
  else
    let b :=
      if s2.ahead > 0 && !optTruthy s2.tracking then
        { b with notices := b.notices ++ [aheadNoTrackingNotice currentBranch s2.ahead] }
      else b
    stashPopPhase b env currentBranch now

/-- Step 4 of the run: re-snapshot after the fetch and inspect divergence
(lines 858-875). -/
def divergencePhase (b : RunResult) (env : GitEnv) (now : String) : RunResult :=
  match env.status2 with
  | .error e => topCatch { b with trace := b.trace ++ [GitOp.status] } e
  | .ok statusAfterFetch =>
    let b := { b with trace := b.trace ++ [GitOp.status] }
    if !optTruthy statusAfterFetch.current then
      topCatch
        { b with notices := b.notices ++
            ["Git Sync: Not on a branch. Please checkout a branch to sync."] }
        { message := "Git Sync: Not on a branch, cannot sync." }
    else
      let currentBranch := statusAfterFetch.current.getD ""
      let b :=
        if !optTruthy statusAfterFetch.tracking && statusAfterFetch.behind > 0 then
          { b with notices := b.notices ++
              [behindNoTrackingNotice currentBranch statusAfterFetch.behind] }
        else b
      rebasePhase b env statusAfterFetch currentBranch now

/-- Step 3 of the run: fetch the remote refs (lines 854-856). -/
def fetchPhase (b : RunResult) (env : GitEnv) (now : String) : RunResult :=
  let b := { b with trace := b.trace ++ [GitOp.fetch] }
  match env.fetch with
  | .error e => topCatch b e
  | .ok _ => divergencePhase b env now

/-- The `try`/`catch` body of `syncVault` (lines 814-1007): initial status,
optional stash push with fatal-failure early return, then the rest. -/
def syncBody (b : RunResult) (env : GitEnv) (now : String) : RunResult :=
  match env.status1 with
  | .error e => topCatch { b with trace := b.trace ++ [GitOp.status] } e
  | .ok initialStatus =>
    let b := { b with trace := b.trace ++ [GitOp.status] }
    let hasLocalChanges := initialStatus.files.any fun f =>
      f.working_dir != ' ' || (f.index != ' ' && f.index != '?')
    if hasLocalChanges then
      let b := { b with trace := b.trace ++ [GitOp.stashPush] }
      match env.stashPush with
      | .ok stashResult =>
        let b :=
          if stashResult ≠ "" &&
              !(includes (jsToLower stashResult) "no local changes to save") then
            { b with stashed := true }
          else { b with stashed := false }
        fetchPhase b env now
      | .error _ =>
        { b with
          notices := b.notices ++
            ["Git Sync: Failed to stash local changes. Sync aborted to prevent data loss."]
          statusHistory := b.statusHistory ++ ["Stash Error"]
          isSyncing := false }
    else fetchPhase b env now

/-- The run result before anything has happened, mirroring the plugin state. -/
def initialRun (st : PluginState) : RunResult :=
  { settings := st.settings
    git := st.git
    isSyncing := st.isSyncing
    stashed := false
    trace := []
    notices := []
    statusHistory := []
    saved := []
    commitMessages := []
    classification := none }

/-- `syncVault` (src/main.ts lines 789-1012): preconditions, the guarded body,
and the `finally` block clearing `isSyncing` on every path through the body. -/
def syncVault (st : PluginState) (env : GitEnv) (now : String) : RunResult :=
  let base := initialRun st
  if st.isSyncing then
    { base with notices := ["Git Sync: Sync already in progress."] }
  else
    let b0 :=
      if st.git then base
      else
        { base with
          notices := base.notices ++
            ["Git Sync: Git is not initialized. Check plugin settings and console."]
          statusHistory := base.statusHistory ++ ["Error: Git not ready"]
          git := env.reinitSucceeds }
    if b0.git = false then b0
    else if st.settings.repoUrl = "" then
      { b0 with
        statusHistory := b0.statusHistory ++ ["Error: Repo URL not set"]
        notices := b0.notices ++ ["Git Sync: Repository URL is not configured in settings."] }
    else
      let b1 := { b0 with
        isSyncing := true
        statusHistory := b0.statusHistory ++ ["Syncing..."] }
      let r := syncBody b1 env now
      { r with isSyncing := false }

/-- `startAutoSync` (src/main.ts lines 1074-1095). -/
def startAutoSync (st : PluginState) : PluginState :=
  if st.syncInterval.isSome then st
  else if st.git = false then st
  else
    let intervalMillis : Int := st.settings.commitInterval * 60 * 1000
    if intervalMillis ≤ 0 then st
    else { st with syncInterval := some intervalMillis }

/-- `stopAutoSync` (src/main.ts lines 1097-1103). -/
def stopAutoSync (st : PluginState) : PluginState :=
  match st.syncInterval with
  | some _ => { st with syncInterval := none }
  | none => st

/-! ### Concrete fixtures used by witnesses and counterexamples -/

/-- A clean repository snapshot on `main` tracking `origin/main`. -/
def cleanStatus : StatusResult :=
  { current := some "main", tracking := some "origin/main", ahead := 0, behind := 0, files := [] }

/-- A snapshot with one modified working-tree path. -/
def dirtyStatus : StatusResult :=
  { cleanStatus with files := [{ working_dir := 'M', index := ' ' }] }

/-- A snapshot two commits behind its tracking branch. -/
def behindStatus : StatusResult := { cleanStatus with behind := 2 }

/-- A ready plugin: client initialized, URL configured, idle. -/
def readyState : PluginState :=
  { settings := { DEFAULT_SETTINGS with repoUrl := "git@example.com:u/vault.git" }
    git := true
    isSyncing := false
    syncInterval := none }

/-- An environment in which every git operation succeeds against a clean repo. -/
def envAllOk : GitEnv :=
  { status1 := .ok cleanStatus
    stashPush := .ok "Saved working directory and index state"
    fetch := .ok ()
    status2 := .ok cleanStatus
    rebase := .ok ()
    rebaseAbort := .ok ()
    stashPop := .ok ()
    add := .ok ()
    status3 := .ok cleanStatus
    commit := .ok ()
    push := .ok ()
    reinitSucceeds := true }

/-- Local changes present and `git stash push` fails. -/
def envStashFail : GitEnv :=
  { envAllOk with
    status1 := .ok dirtyStatus
    stashPush := .error { message := "fatal: unable to write new index file" } }

/-- Local changes present but the stash push shelves nothing. -/
def envNoopStash : GitEnv :=
  { envAllOk with
    status1 := .ok dirtyStatus
    stashPush := .ok "No local changes to save" }

/-- The post-fetch snapshot reports no current branch. -/
def envNoBranch : GitEnv :=
  { envAllOk with status2 := .ok { cleanStatus with current := none } }

/-- A stash is created, the branch is behind, and the rebase hits a conflict. -/
def envRebaseConflict : GitEnv :=
  { envAllOk with
    status1 := .ok dirtyStatus
    status2 := .ok behindStatus
    rebase := .error { message := "CONFLICT (content): Merge conflict in notes.md" } }

/-- The post-stage snapshot has a staged path but no tracking branch. -/
def envCommitNoTrack : GitEnv :=
  { envAllOk with
    status3 := .ok { current := some "main", tracking := none, ahead := 0, behind := 0
                     files := [{ working_dir := ' ', index := 'M' }] } }

/-- The fetch fails with a network error. -/
def envFetchFail : GitEnv :=
  { envAllOk with
    fetch := .error { message := "fatal: Could not read from remote repository." } }

/-! ### Helper lemmas about the top-level catch block -/

theorem topCatch_saved (r : RunResult) (e : JsError) : (topCatch r e).saved = r.saved := by
  unfold topCatch
  split <;> rfl

theorem topCatch_settings (r : RunResult) (e : JsError) :
    (topCatch r e).settings = r.settings := by
  unfold topCatch
  split <;> rfl

theorem topCatch_stashed (r : RunResult) (e : JsError) :
    (topCatch r e).stashed = r.stashed := by
  unfold topCatch
  split <;> rfl

theorem topCatch_trace (r : RunResult) (e : JsError) : (topCatch r e).trace = r.trace := by
  unfold topCatch
  split <;> rfl

theorem topCatch_classification (r : RunResult) (e : JsError) :
    (topCatch r e).classification = some (handleSyncError e).kind := by
  unfold topCatch
  split <;> rfl

/-- C10: starting auto-sync with a configured interval of zero or a negative
number of minutes never installs a timer; starting while a timer is already
installed is a no-op leaving the original timer (and its stored interval)
unchanged; stopping when no timer is installed is a no-op. -/
theorem startStopAutoSync_guard (st : PluginState) :
    (st.settings.commitInterval ≤ 0 → (startAutoSync st).syncInterval = st.syncInterval) ∧
    (st.syncInterval.isSome = true → startAutoSync st = st) ∧
    (st.syncInterval = none → stopAutoSync st = st) := by
  refine ⟨?_, ?_, ?_⟩
  · intro h
    unfold startAutoSync
    by_cases hs : st.syncInterval.isSome
    · simp [hs]
    · have hmul : st.settings.commitInterval * 60 * 1000 ≤ 0 := by nlinarith
      simp [hs, hmul]
  · intro h
    unfold startAutoSync
    simp [h]
  · intro h
    unfold stopAutoSync
    simp [h]

/-- C10 witness: with a configured interval of `0` and no installed timer,
`startAutoSync` installs nothing and `stopAutoSync` is a no-op. -/
theorem startStopAutoSync_guard_witness :
    ({ readyState with
        settings := { readyState.settings with commitInterval := 0 } } :
          PluginState).settings.commitInterval ≤ 0 ∧
    (startAutoSync { readyState with
        settings := { readyState.settings with commitInterval := 0 } }).syncInterval =
      ({ readyState with
          settings := { readyState.settings with commitInterval := 0 } } :
            PluginState).syncInterval ∧
    stopAutoSync { readyState with
        settings := { readyState.settings with commitInterval := 0 } } =
      { readyState with settings := { readyState.settings with commitInterval := 0 } } :=
  ⟨by decide,
   (startStopAutoSync_guard _).1 (by decide),
   (startStopAutoSync_guard _).2.2 rfl⟩

/-- C3 (code bug): the first branch of `handleSyncError` matches the lowercase
substring `conflict`, so the error thrown by the rebase-conflict path
(`"Merge conflict during rebase, operation aborted."`) is classified by the
generic conflict branch (status `Conflict!`), never by its dedicated
rebase-conflict branch (status `Rebase Conflict!`), while the stash-pop
conflict error does reach its dedicated branch. The classifier therefore does
not give the rebase step its own rebase-conflict report. -/
theorem handleSyncError_conflict_shadowing :
    handleSyncError { message := "Merge conflict during rebase, operation aborted." } =
      { kind := ErrKind.conflict
        notice := "Git Sync: A conflict occurred. Please resolve it manually in your Git client."
        statusText := "Conflict!" } ∧
    (handleSyncError
        { message := "Merge conflict during rebase, operation aborted." }).kind ≠
      ErrKind.rebaseConflict ∧
    handleSyncError { message := "Conflict applying stashed changes. Manual resolution needed." } =
      { kind := ErrKind.stashConflict
        notice := "Git Sync: Stash conflict. Manual resolution needed. Stash may still be present."
        statusText := "Stash Conflict!" } := by
  decide

/-- C5: when local changes exist and the stash push fails, the run aborts
immediately: the guard is released, the data-loss notice is surfaced, no later
protocol step runs (the trace is exactly status then stash-push), no stash is
assumed (`stashed` is false), and nothing is classified or persisted. -/
theorem syncVault_stash_failure_aborts (st : PluginState) (env : GitEnv) (now : String)
    (s1 : StatusResult) (e : JsError)
    (hsync : st.isSyncing = false) (hgit : st.git = true)
    (hurl : st.settings.repoUrl ≠ "")
    (h1 : env.status1 = Except.ok s1)
    (hloc : (s1.files.any fun f =>
      f.working_dir != ' ' || (f.index != ' ' && f.index != '?')) = true)
    (hsp : env.stashPush = Except.error e) :
    (syncVault st env now).isSyncing = false ∧
    (syncVault st env now).stashed = false ∧
    (syncVault st env now).trace = [GitOp.status, GitOp.stashPush] ∧
    "Git Sync: Failed to stash local changes. Sync aborted to prevent data loss." ∈
      (syncVault st env now).notices ∧
    (syncVault st env now).statusHistory = ["Syncing...", "Stash Error"] ∧
    (syncVault st env now).saved = [] ∧
    (syncVault st env now).settings = st.settings ∧
    (syncVault st env now).classification = none := by
  unfold syncVault syncBody initialRun
  simp [hsync, hgit, hurl, h1, hloc, hsp]

/-- C5 witness: the concrete stash-failure environment exhibits the abort. -/
theorem syncVault_stash_failure_aborts_witness :
    (syncVault readyState envStashFail "2026-01-01 00:00:00").isSyncing = false ∧
    (syncVault readyState envStashFail "2026-01-01 00:00:00").stashed = false ∧
    (syncVault readyState envStashFail "2026-01-01 00:00:00").trace =
      [GitOp.status, GitOp.stashPush] ∧
    "Git Sync: Failed to stash local changes. Sync aborted to prevent data loss." ∈
      (syncVault readyState envStashFail "2026-01-01 00:00:00").notices ∧
    (syncVault readyState envStashFail "2026-01-01 00:00:00").statusHistory =
      ["Syncing...", "Stash Error"] ∧
    (syncVault readyState envStashFail "2026-01-01 00:00:00").saved = [] ∧
    (syncVault readyState envStashFail "2026-01-01 00:00:00").settings = readyState.settings ∧
    (syncVault readyState envStashFail "2026-01-01 00:00:00").classification = none :=
  syncVault_stash_failure_aborts readyState envStashFail "2026-01-01 00:00:00"
    dirtyStatus { message := "fatal: unable to write new index file" }
    rfl rfl (by decide) rfl (by decide) rfl

/-! ### The `stashed = false` invariant: no stash pop can ever happen -/

theorem stageCommit_no_pop (b : RunResult) (env : GitEnv) (cb now : String)
    (h : b.stashed = false) (ht : GitOp.stashPop ∉ b.trace) :
    (stageCommit b env cb now).stashed = false ∧
      GitOp.stashPop ∉ (stageCommit b env cb now).trace := by
  unfold stageCommit
  repeat' split
  all_goals try simp_all [topCatch_stashed, topCatch_trace]
  all_goals repeat' split
  all_goals try simp_all [topCatch_stashed, topCatch_trace]

theorem stashPopPhase_no_pop (b : RunResult) (env : GitEnv) (cb now : String)
    (h : b.stashed = false) (ht : GitOp.stashPop ∉ b.trace) :
    (stashPopPhase b env cb now).stashed = false ∧
      GitOp.stashPop ∉ (stashPopPhase b env cb now).trace := by
  unfold stashPopPhase
  simp only [h, Bool.false_eq_true, if_false]
  exact stageCommit_no_pop b env cb now h ht

theorem rebasePhase_no_pop (b : RunResult) (env : GitEnv) (s2 : StatusResult)
    (cb now : String)
    (h : b.stashed = false) (ht : GitOp.stashPop ∉ b.trace) :
    (rebasePhase b env s2 cb now).stashed = false ∧
      GitOp.stashPop ∉ (rebasePhase b env s2 cb now).trace := by
  unfold rebasePhase
  repeat' split
  all_goals first
    | exact stashPopPhase_no_pop _ _ _ _ (by simp [h]) (by simp [ht])
    | simp_all [topCatch_stashed, topCatch_trace]

theorem divergencePhase_no_pop (b : RunResult) (env : GitEnv) (now : String)
    (h : b.stashed = false) (ht : GitOp.stashPop ∉ b.trace) :
    (divergencePhase b env now).stashed = false ∧
      GitOp.stashPop ∉ (divergencePhase b env now).trace := by
  unfold divergencePhase
  repeat' split
  all_goals first
    | exact rebasePhase_no_pop _ _ _ _ _ (by simp [h]) (by simp [ht])
    | simp_all [topCatch_stashed, topCatch_trace]

theorem fetchPhase_no_pop (b : RunResult) (env : GitEnv) (now : String)
    (h : b.stashed = false) (ht : GitOp.stashPop ∉ b.trace) :
    (fetchPhase b env now).stashed = false ∧
      GitOp.stashPop ∉ (fetchPhase b env now).trace := by
  unfold fetchPhase
  repeat' split
  all_goals first
    | exact divergencePhase_no_pop _ _ _ (by simp [h]) (by simp [ht])
    | simp_all [topCatch_stashed, topCatch_trace]

/-- C6: when local changes exist but the stash push reports that nothing was
shelved ("No local changes to save"), the session's `stashed` flag resolves to
false and no stash pop is invoked at any later point in that run, whatever the
remaining operations do. -/
theorem syncVault_noop_stash_no_pop (st : PluginState) (env : GitEnv) (now : String)
    (s1 : StatusResult) (sp : String)
    (hsync : st.isSyncing = false) (hgit : st.git = true)
    (hurl : st.settings.repoUrl ≠ "")
    (h1 : env.status1 = Except.ok s1)
    (hloc : (s1.files.any fun f =>
      f.working_dir != ' ' || (f.index != ' ' && f.index != '?')) = true)
    (hsp : env.stashPush = Except.ok sp)
    (hnoop : includes (jsToLower sp) "no local changes to save" = true) :
    (syncVault st env now).stashed = false ∧
      GitOp.stashPop ∉ (syncVault st env now).trace := by
  unfold syncVault syncBody initialRun
  simp only [hsync, hgit, hurl, h1, hloc, hsp, hnoop, Bool.false_eq_true, if_false,
    if_true, ite_true, ite_false, Bool.not_true, Bool.and_false, ne_eq,
    not_false_eq_true, not_true_eq_false]
  have hres := fetchPhase_no_pop
    { settings := st.settings, git := true, isSyncing := true, stashed := false
      trace := [GitOp.status, GitOp.stashPush], notices := [], statusHistory := ["Syncing..."]
      saved := [], commitMessages := [], classification := none } env now rfl (by simp)
  simp_all

/-- C6 witness: the concrete no-op-stash environment creates no stash and pops
none. -/
theorem syncVault_noop_stash_no_pop_witness :
    (syncVault readyState envNoopStash "2026-01-01 00:00:00").stashed = false ∧
      GitOp.stashPop ∉ (syncVault readyState envNoopStash "2026-01-01 00:00:00").trace :=
  syncVault_noop_stash_no_pop readyState envNoopStash "2026-01-01 00:00:00"
    dirtyStatus "No local changes to save"
    rfl rfl (by decide) rfl (by decide) rfl (by decide)

/-- C1: the mutual-exclusion flag is false after every run that started idle,
for every environment (so on every exit path: success, handled error including
the stash-failure early return, and any thrown step, all of which the
environment quantifies over); when the preconditions pass, the guarded body
executes on a state whose flag is true and the `finally` clears it; and a run
started while busy is a no-op that performs no git operation and leaves the
flag (owned by the other run) untouched. -/
theorem syncVault_mutex (st : PluginState) (env : GitEnv) (now : String) :
    (st.isSyncing = false → (syncVault st env now).isSyncing = false) ∧
    (st.isSyncing = false → st.git = true → st.settings.repoUrl ≠ "" →
      syncVault st env now =
        { syncBody { initialRun st with isSyncing := true, statusHistory := ["Syncing..."] }
            env now with isSyncing := false }) ∧
    (st.isSyncing = true →
      syncVault st env now =
        { initialRun st with notices := ["Git Sync: Sync already in progress."] } ∧
      (syncVault st env now).trace = [] ∧
      (syncVault st env now).isSyncing = true) := by
  refine ⟨?_, ?_, ?_⟩
  · intro h
    unfold syncVault
    by_cases hg : st.git <;> by_cases hu : st.settings.repoUrl = "" <;>
      by_cases hr : env.reinitSucceeds <;>
      simp [h, hg, hu, hr, initialRun]
  · intro h hg hu
    unfold syncVault
    simp [h, hg, hu, initialRun]
  · intro h
    unfold syncVault
    simp [h, initialRun]

/-- C1 witness: with the ready state and the all-ok environment the flag is
false afterwards, and a busy run is a no-op. -/
theorem syncVault_mutex_witness :
    readyState.isSyncing = false ∧
    (syncVault readyState envAllOk "2026-01-01 00:00:00").isSyncing = false ∧
    (syncVault { readyState with isSyncing := true } envAllOk "2026-01-01 00:00:00").trace =
      [] :=
  ⟨rfl,
   (syncVault_mutex readyState envAllOk "2026-01-01 00:00:00").1 rfl,
   ((syncVault_mutex { readyState with isSyncing := true } envAllOk
      "2026-01-01 00:00:00").2.2 rfl).2.1⟩

set_option maxRecDepth 8192 in
/-- C4: when the post-fetch snapshot reports no current branch, the run aborts
at that step: the dedicated configuration notice ("Not on a branch. Please
checkout a branch to sync.") is emitted — the report the specification's
taxonomy files under `ConfigurationError` — the thrown error reaches the
top-level handler, and no rebase, rebase-abort, stash-pop, stage, commit or
push is ever invoked in that run. -/
theorem syncVault_no_branch_aborts (st : PluginState) (env : GitEnv) (now : String)
    (s1 : StatusResult) (sp : String) (s2 : StatusResult)
    (hsync : st.isSyncing = false) (hgit : st.git = true)
    (hurl : st.settings.repoUrl ≠ "")
    (h1 : env.status1 = Except.ok s1)
    (hsp : env.stashPush = Except.ok sp)
    (hf : env.fetch = Except.ok ())
    (h2 : env.status2 = Except.ok s2)
    (hcur : optTruthy s2.current = false) :
    "Git Sync: Not on a branch. Please checkout a branch to sync." ∈
      (syncVault st env now).notices ∧
    (syncVault st env now).classification = some ErrKind.generic ∧
    GitOp.rebase ∉ (syncVault st env now).trace ∧
    GitOp.rebaseAbort ∉ (syncVault st env now).trace ∧
    GitOp.stashPop ∉ (syncVault st env now).trace ∧
    GitOp.add ∉ (syncVault st env now).trace ∧
    GitOp.commit ∉ (syncVault st env now).trace ∧
    GitOp.push ∉ (syncVault st env now).trace := by
  have hgen : handleSyncError { message := "Git Sync: Not on a branch, cannot sync." } =
      { kind := ErrKind.generic
        notice := "Git Sync: Error - Git Sync: Not on a branch, cannot sync...."
        statusText := "Sync Error" } := by decide
  have hm1 : includes "Git Sync: Not on a branch, cannot sync."
      "Conflict applying stashed changes" = false := by decide
  have hm2 : includes "Git Sync: Not on a branch, cannot sync."
      "Merge conflict during rebase" = false := by decide
  unfold syncVault syncBody fetchPhase divergencePhase initialRun topCatch
  by_cases hloc : (s1.files.any fun f =>
      f.working_dir != ' ' || (f.index != ' ' && f.index != '?')) = true <;>
    by_cases hst : (¬sp = "" ∧ includes (jsToLower sp) "no local changes to save" = false) <;>
    simp [hsync, hgit, hurl, h1, hsp, hf, h2, hcur, hloc, hst, hgen, hm1, hm2]

/-- C4 witness: the concrete detached-state environment exhibits the abort. -/
theorem syncVault_no_branch_aborts_witness :
    "Git Sync: Not on a branch. Please checkout a branch to sync." ∈
      (syncVault readyState envNoBranch "2026-01-01 00:00:00").notices ∧
    (syncVault readyState envNoBranch "2026-01-01 00:00:00").classification =
      some ErrKind.generic ∧
    GitOp.rebase ∉ (syncVault readyState envNoBranch "2026-01-01 00:00:00").trace ∧
    GitOp.rebaseAbort ∉ (syncVault readyState envNoBranch "2026-01-01 00:00:00").trace ∧
    GitOp.stashPop ∉ (syncVault readyState envNoBranch "2026-01-01 00:00:00").trace ∧
    GitOp.add ∉ (syncVault readyState envNoBranch "2026-01-01 00:00:00").trace ∧
    GitOp.commit ∉ (syncVault readyState envNoBranch "2026-01-01 00:00:00").trace ∧
    GitOp.push ∉ (syncVault readyState envNoBranch "2026-01-01 00:00:00").trace :=
  syncVault_no_branch_aborts readyState envNoBranch "2026-01-01 00:00:00"
    cleanStatus "Saved working directory and index state" { cleanStatus with current := none }
    rfl rfl (by decide) rfl rfl rfl rfl rfl

set_option maxHeartbeats 1600000 in
/-- C7: when the fresh snapshot taken after the stage step shows zero paths
with a non-clean staged state, no commit and no push is invoked, `lastSync` is
still updated, the settings are persisted exactly once, and the terminal
outcome is "Up-to-date". -/
theorem syncVault_up_to_date (st : PluginState) (env : GitEnv) (now : String)
    (s1 : StatusResult) (sp : String) (s2 s3 : StatusResult)
    (hsync : st.isSyncing = false) (hgit : st.git = true)
    (hurl : st.settings.repoUrl ≠ "")
    (h1 : env.status1 = Except.ok s1)
    (hsp : env.stashPush = Except.ok sp)
    (hf : env.fetch = Except.ok ())
    (h2 : env.status2 = Except.ok s2)
    (hcur : optTruthy s2.current = true)
    (hrb : env.rebase = Except.ok ())
    (hpop : env.stashPop = Except.ok ())
    (hadd : env.add = Except.ok ())
    (h3 : env.status3 = Except.ok s3)
    (hstaged : s3.files.filter (fun f => f.index != ' ' && f.index != '?') = []) :
    GitOp.commit ∉ (syncVault st env now).trace ∧
    GitOp.push ∉ (syncVault st env now).trace ∧
    (syncVault st env now).saved = [{ st.settings with lastSync := now }] ∧
    (syncVault st env now).settings = { st.settings with lastSync := now } ∧
    (syncVault st env now).statusHistory = ["Syncing...", "Up-to-date"] ∧
    "Git Sync: Vault is up-to-date. No local changes to commit." ∈
      (syncVault st env now).notices ∧
    (syncVault st env now).classification = none := by
  by_cases c1 : (s1.files.any fun f =>
      f.working_dir != ' ' || (f.index != ' ' && f.index != '?')) = true <;>
    by_cases c2 : (¬sp = "" ∧ includes (jsToLower sp) "no local changes to save" = false) <;>
    by_cases c3 : optTruthy s2.tracking = true <;>
    by_cases c4 : s2.behind > 0 <;>
    by_cases c5 : s2.ahead > 0 <;>
    (unfold syncVault syncBody fetchPhase divergencePhase rebasePhase stashPopPhase
      stageCommit initialRun
     simp [hsync, hgit, hurl, h1, hsp, hf, h2, hcur, hrb, hpop, hadd, h3, hstaged,
       c1, c2, c3, c4, c5])

/-- C7 witness: the concrete all-ok clean-repository environment ends
up-to-date without committing or pushing. -/
theorem syncVault_up_to_date_witness :
    GitOp.commit ∉ (syncVault readyState envAllOk "2026-01-01 00:00:00").trace ∧
    GitOp.push ∉ (syncVault readyState envAllOk "2026-01-01 00:00:00").trace ∧
    (syncVault readyState envAllOk "2026-01-01 00:00:00").saved =
      [{ readyState.settings with lastSync := "2026-01-01 00:00:00" }] ∧
    (syncVault readyState envAllOk "2026-01-01 00:00:00").settings =
      { readyState.settings with lastSync := "2026-01-01 00:00:00" } ∧
    (syncVault readyState envAllOk "2026-01-01 00:00:00").statusHistory =
      ["Syncing...", "Up-to-date"] ∧
    "Git Sync: Vault is up-to-date. No local changes to commit." ∈
      (syncVault readyState envAllOk "2026-01-01 00:00:00").notices ∧
    (syncVault readyState envAllOk "2026-01-01 00:00:00").classification = none :=
  syncVault_up_to_date readyState envAllOk "2026-01-01 00:00:00"
    cleanStatus "Saved working directory and index state" cleanStatus cleanStatus
    rfl rfl (by decide) rfl rfl rfl rfl rfl rfl rfl rfl rfl rfl

set_option maxHeartbeats 1600000 in
/-- C8: when the post-stage snapshot has staged paths but no tracking branch
and the commit succeeds, the push is skipped, commit is invoked exactly once,
the explicit committed-locally warning is emitted, the terminal outcome is
"Committed (not pushed)", and `lastSync` is updated and persisted. -/
theorem syncVault_committed_not_pushed (st : PluginState) (env : GitEnv) (now : String)
    (s1 : StatusResult) (sp : String) (s2 s3 : StatusResult)
    (hsync : st.isSyncing = false) (hgit : st.git = true)
    (hurl : st.settings.repoUrl ≠ "")
    (h1 : env.status1 = Except.ok s1)
    (hsp : env.stashPush = Except.ok sp)
    (hf : env.fetch = Except.ok ())
    (h2 : env.status2 = Except.ok s2)
    (hcur : optTruthy s2.current = true)
    (hrb : env.rebase = Except.ok ())
    (hpop : env.stashPop = Except.ok ())
    (hadd : env.add = Except.ok ())
    (h3 : env.status3 = Except.ok s3)
    (hstaged : (s3.files.filter (fun f => f.index != ' ' && f.index != '?')).length > 0)
    (htrk : optTruthy s3.tracking = false)
    (hcm : env.commit = Except.ok ()) :
    GitOp.push ∉ (syncVault st env now).trace ∧
    (syncVault st env now).trace.count GitOp.commit = 1 ∧
    committedLocallyNotice (s2.current.getD "") ∈ (syncVault st env now).notices ∧
    (syncVault st env now).statusHistory = ["Syncing...", "Committed (not pushed)"] ∧
    (syncVault st env now).saved = [{ st.settings with lastSync := now }] ∧
    (syncVault st env now).settings = { st.settings with lastSync := now } ∧
    (syncVault st env now).classification = none := by
  by_cases c1 : (s1.files.any fun f =>
      f.working_dir != ' ' || (f.index != ' ' && f.index != '?')) = true <;>
    by_cases c2 : (¬sp = "" ∧ includes (jsToLower sp) "no local changes to save" = false) <;>
    by_cases c3 : optTruthy s2.tracking = true <;>
    by_cases c4 : s2.behind > 0 <;>
    by_cases c5 : s2.ahead > 0 <;>
    (unfold syncVault syncBody fetchPhase divergencePhase rebasePhase stashPopPhase
      stageCommit initialRun
     simp [hsync, hgit, hurl, h1, hsp, hf, h2, hcur, hrb, hpop, hadd, h3, hstaged,
       htrk, hcm, c1, c2, c3, c4, c5, List.count_append, List.count_cons,
       List.count_nil])

/-- C8 witness: the concrete staged-but-untracked environment commits once and
skips the push. -/
theorem syncVault_committed_not_pushed_witness :
    GitOp.push ∉ (syncVault readyState envCommitNoTrack "2026-01-01 00:00:00").trace ∧
    (syncVault readyState envCommitNoTrack "2026-01-01 00:00:00").trace.count
      GitOp.commit = 1 ∧
    committedLocallyNotice "main" ∈
      (syncVault readyState envCommitNoTrack "2026-01-01 00:00:00").notices ∧
    (syncVault readyState envCommitNoTrack "2026-01-01 00:00:00").statusHistory =
      ["Syncing...", "Committed (not pushed)"] ∧
    (syncVault readyState envCommitNoTrack "2026-01-01 00:00:00").saved =
      [{ readyState.settings with lastSync := "2026-01-01 00:00:00" }] ∧
    (syncVault readyState envCommitNoTrack "2026-01-01 00:00:00").settings =
      { readyState.settings with lastSync := "2026-01-01 00:00:00" } ∧
    (syncVault readyState envCommitNoTrack "2026-01-01 00:00:00").classification = none :=
  syncVault_committed_not_pushed readyState envCommitNoTrack "2026-01-01 00:00:00"
    cleanStatus "Saved working directory and index state" cleanStatus
    { current := some "main", tracking := none, ahead := 0, behind := 0
      files := [{ working_dir := ' ', index := 'M' }] }
    rfl rfl (by decide) rfl rfl rfl rfl rfl rfl rfl rfl rfl (by decide) rfl rfl

set_option maxHeartbeats 1600000 in
/-- C2 (amended): with a tracking branch and `behind > 0`, rebase is attempted
exactly once; on a conflict, rebase-abort is invoked exactly once (whatever its
outcome) and the run terminates through the error classifier's generic
conflict branch (status `Conflict!`); no stash-pop, stage, commit or push
runs.  Contrary to the original claim, an outstanding stash (`stashed = true`)
is NOT reported as still pending: the top-level handler explicitly suppresses
the stashed-changes warning for the rebase-conflict failure, and no other
notice on this path mentions the stash. -/
theorem syncVault_rebase_conflict_aborts (st : PluginState) (env : GitEnv) (now : String)
    (s1 : StatusResult) (sp : String) (s2 : StatusResult) (re : JsError)
    (hsync : st.isSyncing = false) (hgit : st.git = true)
    (hurl : st.settings.repoUrl ≠ "")
    (h1 : env.status1 = Except.ok s1)
    (hloc : (s1.files.any fun f =>
      f.working_dir != ' ' || (f.index != ' ' && f.index != '?')) = true)
    (hsp : env.stashPush = Except.ok sp)
    (hshelf : ¬sp = "" ∧ includes (jsToLower sp) "no local changes to save" = false)
    (hf : env.fetch = Except.ok ())
    (h2 : env.status2 = Except.ok s2)
    (hcur : optTruthy s2.current = true)
    (htrk : optTruthy s2.tracking = true)
    (hbeh : s2.behind > 0)
    (hrb : env.rebase = Except.error re)
    (hconf : re.message ≠ "" ∧ includes re.message "CONFLICT" = true) :
    (syncVault st env now).trace.count GitOp.rebase = 1 ∧
    (syncVault st env now).trace.count GitOp.rebaseAbort = 1 ∧
    (syncVault st env now).classification = some ErrKind.conflict ∧
    (syncVault st env now).statusHistory = ["Syncing...", "Conflict!"] ∧
    (syncVault st env now).stashed = true ∧
    stashWarnNotice ∉ (syncVault st env now).notices ∧
    GitOp.stashPop ∉ (syncVault st env now).trace ∧
    GitOp.add ∉ (syncVault st env now).trace ∧
    GitOp.commit ∉ (syncVault st env now).trace ∧
    GitOp.push ∉ (syncVault st env now).trace := by
  have hth1 : includes "Merge conflict during rebase, operation aborted."
      "Conflict applying stashed changes" = false := by decide
  have hth2 : includes "Merge conflict during rebase, operation aborted."
      "Merge conflict during rebase" = true := by decide
  have hcls : handleSyncError { message := "Merge conflict during rebase, operation aborted." } =
      { kind := ErrKind.conflict
        notice := "Git Sync: A conflict occurred. Please resolve it manually in your Git client."
        statusText := "Conflict!" } := by decide
  cases hab : env.rebaseAbort <;>
    (unfold syncVault syncBody fetchPhase divergencePhase rebasePhase topCatch initialRun
     simp [hsync, hgit, hurl, h1, hloc, hsp, hshelf, hf, h2, hcur, htrk, hbeh, hrb,
       hconf, hab, hth1, hth2, hcls, List.count_append, List.count_cons, List.count_nil]) <;>
    decide

/-- C2 counterexample to the original claim: in a concrete run where a stash
was created (`stashed = true`), the branch is behind with a tracking branch,
and the rebase conflicts, the complete notice list of the run contains no
message about the outstanding stash (in particular not the stashed-changes
warning), so the stash is not reported to the user as still pending; the
terminal classification is moreover the generic conflict report, not a
rebase-specific one. -/
theorem syncVault_rebase_conflict_stash_unreported :
    (syncVault readyState envRebaseConflict "2026-01-01 00:00:00").stashed = true ∧
    (syncVault readyState envRebaseConflict "2026-01-01 00:00:00").notices =
      ["Git Sync: Merge conflict detected during rebase. Please resolve manually.",
       "Git Sync: Rebase aborted. Please resolve conflicts and sync manually.",
       "Git Sync: A conflict occurred. Please resolve it manually in your Git client."] ∧
    stashWarnNotice ∉ (syncVault readyState envRebaseConflict "2026-01-01 00:00:00").notices ∧
    (syncVault readyState envRebaseConflict "2026-01-01 00:00:00").statusHistory =
      ["Syncing...", "Conflict!"] := by
  decide

/-- C2 witness: the concrete rebase-conflict environment realizes the amended
claim. -/
theorem syncVault_rebase_conflict_aborts_witness :
    (syncVault readyState envRebaseConflict "2026-01-01 00:00:00").trace.count
      GitOp.rebase = 1 ∧
    (syncVault readyState envRebaseConflict "2026-01-01 00:00:00").trace.count
      GitOp.rebaseAbort = 1 ∧
    (syncVault readyState envRebaseConflict "2026-01-01 00:00:00").classification =
      some ErrKind.conflict ∧
    (syncVault readyState envRebaseConflict "2026-01-01 00:00:00").stashed = true ∧
    GitOp.stashPop ∉ (syncVault readyState envRebaseConflict "2026-01-01 00:00:00").trace :=
  have h := syncVault_rebase_conflict_aborts readyState envRebaseConflict
    "2026-01-01 00:00:00" dirtyStatus "Saved working directory and index state"
    behindStatus { message := "CONFLICT (content): Merge conflict in notes.md" }
    rfl rfl (by decide) rfl (by decide) rfl (by decide) rfl rfl rfl rfl (by decide)
    rfl (by decide)
  ⟨h.1, h.2.1, h.2.2.1, h.2.2.2.2.1, h.2.2.2.2.2.2.1⟩


/-! ### Failure paths never persist settings -/

theorem stageCommit_fail (b : RunResult) (env : GitEnv) (cb now : String)
    (hc : b.classification = none) (hsh : "Stash Error" ∉ b.statusHistory)
    (hsv : b.saved = []) :
    ((stageCommit b env cb now).classification.isSome = true ∨
      "Stash Error" ∈ (stageCommit b env cb now).statusHistory) →
    (stageCommit b env cb now).saved = [] ∧
    (stageCommit b env cb now).settings = b.settings := by
  unfold stageCommit
  repeat' split
  all_goals try simp_all [topCatch_saved, topCatch_settings, topCatch_classification]
  all_goals repeat' split
  all_goals simp_all [topCatch_saved, topCatch_settings, topCatch_classification]

theorem stashPopPhase_fail (b : RunResult) (env : GitEnv) (cb now : String)
    (hc : b.classification = none) (hsh : "Stash Error" ∉ b.statusHistory)
    (hsv : b.saved = []) :
    ((stashPopPhase b env cb now).classification.isSome = true ∨
      "Stash Error" ∈ (stashPopPhase b env cb now).statusHistory) →
    (stashPopPhase b env cb now).saved = [] ∧
    (stashPopPhase b env cb now).settings = b.settings := by
  unfold stashPopPhase
  repeat' split
  all_goals first
    | exact stageCommit_fail _ _ _ _ (by simp [hc]) (by simp [hsh]) (by simp [hsv])
    | (intro hx
       exact ⟨by simp [topCatch_saved, hsv], by simp [topCatch_settings]⟩)

theorem rebasePhase_fail (b : RunResult) (env : GitEnv) (s2 : StatusResult)
    (cb now : String)
    (hc : b.classification = none) (hsh : "Stash Error" ∉ b.statusHistory)
    (hsv : b.saved = []) :
    ((rebasePhase b env s2 cb now).classification.isSome = true ∨
      "Stash Error" ∈ (rebasePhase b env s2 cb now).statusHistory) →
    (rebasePhase b env s2 cb now).saved = [] ∧
    (rebasePhase b env s2 cb now).settings = b.settings := by
  unfold rebasePhase
  repeat' split
  all_goals first
    | exact stashPopPhase_fail _ _ _ _ (by simp [hc]) (by simp [hsh]) (by simp [hsv])
    | (intro hx
       exact ⟨by simp [topCatch_saved, hsv], by simp [topCatch_settings]⟩)

theorem divergencePhase_fail (b : RunResult) (env : GitEnv) (now : String)
    (hc : b.classification = none) (hsh : "Stash Error" ∉ b.statusHistory)
    (hsv : b.saved = []) :
    ((divergencePhase b env now).classification.isSome = true ∨
      "Stash Error" ∈ (divergencePhase b env now).statusHistory) →
    (divergencePhase b env now).saved = [] ∧
    (divergencePhase b env now).settings = b.settings := by
  unfold divergencePhase
  repeat' split
  all_goals first
    | exact rebasePhase_fail _ _ _ _ _ (by simp [hc]) (by simp [hsh]) (by simp [hsv])
    | (intro hx
       exact ⟨by simp [topCatch_saved, hsv], by simp [topCatch_settings]⟩)

theorem fetchPhase_fail (b : RunResult) (env : GitEnv) (now : String)
    (hc : b.classification = none) (hsh : "Stash Error" ∉ b.statusHistory)
    (hsv : b.saved = []) :
    ((fetchPhase b env now).classification.isSome = true ∨
      "Stash Error" ∈ (fetchPhase b env now).statusHistory) →
    (fetchPhase b env now).saved = [] ∧
    (fetchPhase b env now).settings = b.settings := by
  unfold fetchPhase
  repeat' split
  all_goals first
    | exact divergencePhase_fail _ _ _ (by simp [hc]) (by simp [hsh]) (by simp [hsv])
    | (intro hx
       exact ⟨by simp [topCatch_saved, hsv], by simp [topCatch_settings]⟩)

theorem syncBody_fail (b : RunResult) (env : GitEnv) (now : String)
    (hc : b.classification = none) (hsh : "Stash Error" ∉ b.statusHistory)
    (hsv : b.saved = []) :
    ((syncBody b env now).classification.isSome = true ∨
      "Stash Error" ∈ (syncBody b env now).statusHistory) →
    (syncBody b env now).saved = [] ∧
    (syncBody b env now).settings = b.settings := by
  unfold syncBody
  cases h1 : env.status1 with
  | error e =>
    intro hx
    exact ⟨by simp [topCatch_saved, hsv], by simp [topCatch_settings]⟩
  | ok s1 =>
    dsimp only
    by_cases hloc : (s1.files.any fun f =>
        f.working_dir != ' ' || (f.index != ' ' && f.index != '?')) = true
    · simp only [hloc, if_true]
      cases hsp : env.stashPush with
      | ok sp =>
        dsimp only
        split
        all_goals exact fetchPhase_fail _ _ _ (by simp [hc]) (by simp [hsh]) (by simp [hsv])
      | error e =>
        intro hx
        exact ⟨by simp [hsv], by simp⟩
    · simp only [hloc, if_false]
      exact fetchPhase_fail _ _ _ (by simp [hc]) (by simp [hsh]) (by simp [hsv])

/-- C9: whenever a run terminates in failure — an exception reaching the
top-level catch handler (the run carries a classification) or the
stash-push-failure early return (the run shows the `Stash Error` status) —
no settings are saved and the in-memory settings record, including
`lastSync`, is exactly what it was at run start; settings are persisted only
on the three success terminals. -/
theorem syncVault_failure_no_persist (st : PluginState) (env : GitEnv) (now : String) :
    ((syncVault st env now).classification.isSome = true ∨
      "Stash Error" ∈ (syncVault st env now).statusHistory) →
    (syncVault st env now).saved = [] ∧
    (syncVault st env now).settings = st.settings := by
  unfold syncVault initialRun
  by_cases hs : st.isSyncing = true
  · simp [hs]
  · by_cases hg : st.git = true
    · by_cases hu : st.settings.repoUrl = ""
      · simp [hs, hg, hu]
      · have h := syncBody_fail
          { settings := st.settings, git := true, isSyncing := true, stashed := false
            trace := [], notices := [], statusHistory := ["Syncing..."]
            saved := [], commitMessages := [], classification := none }
          env now rfl (by simp) rfl
        simp only [hs, hg, hu]
        simpa using h
    · by_cases hr : env.reinitSucceeds = true
      · by_cases hu : st.settings.repoUrl = ""
        · simp [hs, hg, hr, hu]
        · have h := syncBody_fail
            { settings := st.settings, git := true, isSyncing := true, stashed := false
              trace := []
              notices := ["Git Sync: Git is not initialized. Check plugin settings and console."]
              statusHistory := ["Error: Git not ready", "Syncing..."]
              saved := [], commitMessages := [], classification := none }
            env now rfl (by simp) rfl
          simp only [hs, hg, hr, hu]
          simpa using h
      · simp [hs, hg, hr]

/-- C9 witness: in a concrete run whose fetch fails, the error is classified
and nothing is persisted. -/
theorem syncVault_failure_no_persist_witness :
    ((syncVault readyState envFetchFail "2026-01-01 00:00:00").classification.isSome = true ∨
      "Stash Error" ∈ (syncVault readyState envFetchFail "2026-01-01 00:00:00").statusHistory) ∧
    ((syncVault readyState envFetchFail "2026-01-01 00:00:00").saved = [] ∧
      (syncVault readyState envFetchFail "2026-01-01 00:00:00").settings =
        readyState.settings) :=
  ⟨Or.inl (by decide),
   syncVault_failure_no_persist readyState envFetchFail "2026-01-01 00:00:00"
     (Or.inl (by decide))⟩

end GitSync
